import Mathlib

/-!
Shallow embedding of the yarnsign-backend pairing / broadcast core.

The definitions below are translated from the JavaScript source:
  * `src/models/Display.js` (display schema and pre-save pairing-code hook),
  * `src/models/Restaurant.js`, `src/unnamed/part_000` (menu schema),
  * `src/routes/restaurants.js` (restaurants router and displays router),
  * `src/routes/menus.js`, `src/routes/items.js`,
  * `src/index.js` (route mounting and socket rooms).

Mongo object ids are modelled as `Nat`; a JS value that may be
`null`/`undefined` is modelled as `Option`.  Each express handler becomes a
pure function from the caller, the request parameters and the store to an
`HOut`: the resulting store, the list of socket.io events emitted, the HTTP
status and the JSON body.  The random fraction fed to
`Math.random().toString(36)` is modelled by its base-36 digit expansion, a
`List (Fin 36)`.
-/

namespace Yarnsign

abbrev Id := Nat

/-- Display document, from `src/models/Display.js` lines 3-28: `name`,
`pairingCode` (unique sparse), `currentMenu` (ref `Menu`), `mediaUrl`,
`mediaType`. -/
structure Display where
  id : Id
  name : String
  pairingCode : Option String
  currentMenu : Option Id
  mediaUrl : Option String
  mediaType : Option String
deriving Repr, DecidableEq

/-- Menu document, from `src/unnamed/part_000`: `name`, `description`,
`items` (ordered list of item refs). -/
structure Menu where
  id : Id
  name : String
  description : Option String
  items : List Id
deriving Repr, DecidableEq

/-- Item document, the fields used by the routes under scrutiny, from the
item schema (`src/README.md` copy) and `src/routes/items.js`: `name`,
`category`, `isAvailable`, `restaurant` (back reference). -/
structure Item where
  id : Id
  name : String
  category : String
  isAvailable : Bool
  restaurant : Id
deriving Repr, DecidableEq

/-- Restaurant document, from `src/models/Restaurant.js`: `name`, `owner`
(ref `User`), and the id collections `menus`, `items`, `displays`. -/
structure Restaurant where
  id : Id
  name : String
  owner : Id
  menus : List Id
  items : List Id
  displays : List Id
deriving Repr, DecidableEq

/-- The identity store: one collection per model, in insertion order
(mongoose `find`/`findOne` scan in natural order). -/
structure Store where
  restaurants : List Restaurant
  menus : List Menu
  items : List Item
  displays : List Display
deriving Repr, DecidableEq

/-! ### Lookups (mongoose `findById` / `findOne`) -/

def findRestaurant (s : Store) (i : Id) : Option Restaurant :=
  s.restaurants.find? (fun r => r.id == i)

def findMenu (s : Store) (i : Id) : Option Menu :=
  s.menus.find? (fun m => m.id == i)

def findItem (s : Store) (i : Id) : Option Item :=
  s.items.find? (fun it => it.id == i)

def findDisplay (s : Store) (i : Id) : Option Display :=
  s.displays.find? (fun d => d.id == i)

/-- `Display.findOne({ pairingCode })`, the code → display resolution used by
`POST /displays/pair` and `GET /displays/pair/:pairingCode`
(`src/routes/restaurants.js` lines 278 and 306): case-sensitive exact
match. -/
def resolveCode (s : Store) (code : String) : Option Display :=
  s.displays.find? (fun d => d.pairingCode == some code)

/-! ### Saving a document (mongoose `save` on an existing document replaces
the document with the same `_id`) -/

def saveDisplay (s : Store) (d : Display) : Store :=
  { s with displays := s.displays.map (fun x => if x.id == d.id then d else x) }

def saveMenu (s : Store) (m : Menu) : Store :=
  { s with menus := s.menus.map (fun x => if x.id == m.id then m else x) }

def saveItem (s : Store) (it : Item) : Store :=
  { s with items := s.items.map (fun x => if x.id == it.id then it else x) }

def saveRestaurant (s : Store) (r : Restaurant) : Store :=
  { s with restaurants := s.restaurants.map (fun x => if x.id == r.id then r else x) }

/-! ### The pairing-code generator

`Math.random().toString(36).substring(2, 8).toUpperCase()` appears verbatim
at both call sites: the `pre('save')` hook of `src/models/Display.js`
line 33 and the regenerate route of `src/routes/restaurants.js` line 469.
`Math.random()` returns a double in `[0,1)`; `Number.prototype.toString(36)`
prints `"0"` for zero and otherwise `"0."` followed by the base-36 digits of
the fraction, trailing zeros trimmed (shortest round-tripping form).  We
model the printed digit list directly as a `List (Fin 36)`. -/

/-- The character JS uses for one base-36 digit: `0`-`9` then `a`-`z`. -/
def base36Char (d : Fin 36) : Char :=
  if d.val < 10 then Char.ofNat (48 + d.val) else Char.ofNat (87 + d.val)

/-- `x.toString(36)` for the double `x = Math.random()`, given the printed
digit expansion of its fractional part (empty for `x = 0`). -/
def jsNumToString36 (ds : List (Fin 36)) : String :=
  if ds.isEmpty then "0" else "0." ++ String.mk (ds.map base36Char)

/-- JS `String.prototype.substring(a, b)`: characters at indices
`[a, min b length)`. -/
def jsSubstring (str : String) (a b : Nat) : String :=
  String.mk ((str.toList.drop a).take (b - a))

/-- JS `String.prototype.toUpperCase` on the characters that can occur here
(ASCII). -/
def jsUpperChar (c : Char) : Char :=
  if 97 ≤ c.toNat ∧ c.toNat ≤ 122 then Char.ofNat (c.toNat - 32) else c

def jsToUpperCase (str : String) : String :=
  String.mk (str.toList.map jsUpperChar)

/-- `Math.random().toString(36).substring(2, 8).toUpperCase()` as a function
of the digit expansion of the random fraction. -/
def genPairingCode (ds : List (Fin 36)) : String :=
  jsToUpperCase (jsSubstring (jsNumToString36 ds) 2 8)

/-! ### Fetched display documents and `transformDisplay`

A display fetched with `.populate('currentMenu')` carries either `null`, a
bare ObjectId, or the full menu document in its `currentMenu` field;
`transformDisplay` (`src/routes/restaurants.js` lines 149-180) normalizes
the three shapes. -/

/-- The possible shapes of `doc.currentMenu` on a fetched display document. -/
inductive CMField where
  | absent
  | ref (id : Id)
  | populated (id : Id) (name : String) (description : Option String)
      (items : Option (List Id))
deriving Repr, DecidableEq

/-- A display document as a route handler sees it after `findById` /
`findOne`, with `currentMenu` possibly populated. -/
structure DisplayDoc where
  id : Id
  name : String
  pairingCode : Option String
  currentMenu : CMField
  mediaUrl : Option String
  mediaType : Option String
deriving Repr, DecidableEq

/-- A display fetched without `.populate`: `currentMenu` is the raw
reference. -/
def rawDoc (d : Display) : DisplayDoc :=
  ⟨d.id, d.name, d.pairingCode,
    (match d.currentMenu with
     | none => CMField.absent
     | some i => CMField.ref i),
    d.mediaUrl, d.mediaType⟩

/-- A display fetched with `.populate('currentMenu')`: mongoose replaces the
reference by the menu document, or by `null` when the referenced menu no
longer exists. -/
def populateDoc (s : Store) (d : Display) : DisplayDoc :=
  ⟨d.id, d.name, d.pairingCode,
    (match d.currentMenu with
     | none => CMField.absent
     | some i =>
       match findMenu s i with
       | none => CMField.absent
       | some m => CMField.populated m.id m.name m.description (some m.items)),
    d.mediaUrl, d.mediaType⟩

/-- The normalized `currentMenu` of a transformed display.  `menu` carries
an optional name: the flattening branch copies `doc.currentMenu.name`
verbatim, which is `undefined` when the branch fires on a bare ObjectId
(see `transformDisplay`).  `refId` is the pass-through shape the spec
describes; the program never produces it. -/
inductive TCurrentMenu where
  | nullv
  | refId (id : Id)
  | menu (id : Id) (name : Option String) (description : Option String)
      (items : List Id)
deriving Repr, DecidableEq

/-- The transformed display shape the frontend consumes. -/
structure TDisplay where
  id : Id
  name : String
  pairingCode : Option String
  currentMenu : TCurrentMenu
  mediaUrl : Option String
  mediaType : Option String
deriving Repr, DecidableEq

/-- `transformDisplay` from `src/routes/restaurants.js` lines 149-180.  An
absent reference becomes `null`.  For a present `doc.currentMenu` the code
tests `typeof doc.currentMenu === 'object' && doc.currentMenu._id`.  A
mongoose/bson ObjectId is an object and (since mongoose 5.1) carries an
`_id` getter returning itself, so this test is truthy **both** for a
populated menu document and for a bare un-populated reference: the
flattening branch always fires.  On a populated menu it yields
`{id, name, description, items: items || []}`; on a bare ObjectId it
yields `{id: <the ObjectId>, name: undefined, description: undefined,
items: []}`.  The `else` branch ("It's just an ObjectId") is dead code;
the remaining display fields are copied. -/
def transformDisplay (doc : DisplayDoc) : TDisplay :=
  ⟨doc.id, doc.name, doc.pairingCode,
    (match doc.currentMenu with
     | CMField.absent => TCurrentMenu.nullv
     | CMField.ref i => TCurrentMenu.menu i none none []
     | CMField.populated i n dsc its =>
       TCurrentMenu.menu i (some n) dsc (its.getD [])),
    doc.mediaUrl, doc.mediaType⟩

/-- Modelled from the spec (section 4.3): the normalization the spec
claims for the optional current-menu reference of a display — "if
populated with a full menu object it is flattened to
`{id, name, description, items}`; if only a reference id, passed through
unchanged; if absent, `null`".  Stated separately from `transformDisplay`
so that agreement (or, as it turns out on the `ref` case, disagreement)
between the two is a theorem, not a definition. -/
def specNormalizeCM : CMField → TCurrentMenu
  | CMField.absent => TCurrentMenu.nullv
  | CMField.ref i => TCurrentMenu.refId i
  | CMField.populated i n dsc its => TCurrentMenu.menu i (some n) dsc (its.getD [])

/-- The current-menu normalization the amended claim describes: a populated
menu is flattened with its name and description, an absent reference
becomes `null`, and a bare reference is **wrapped** — the ObjectId `_id`
getter makes the flattening branch fire, producing
`{id, name: undefined, description: undefined, items: []}` — rather than
passed through. -/
def amendedNormalizeCM : CMField → TCurrentMenu
  | CMField.absent => TCurrentMenu.nullv
  | CMField.ref i => TCurrentMenu.menu i none none []
  | CMField.populated i n dsc its => TCurrentMenu.menu i (some n) dsc (its.getD [])

/-! ### Socket.io events and HTTP results -/

/-- The payloads the routes under scrutiny emit. -/
inductive Payload where
  | displayP (t : TDisplay)
  | menuP (m : Menu)
  | menuDeletedP (menuId : Id)
  | itemAvailP (itemId : Id) (isAvailable : Bool)
  | menuAssignedP (displayId : Id) (menuId : Option Id)
  | mediaUploadedP (displayId : Id) (mediaUrl : String) (mediaType : String)
  | mediaRemovedP (displayId : Id)
  | displayDeletedP (displayId : Id)
  | pairedP (displayId : Id) (displayName : String)
deriving Repr, DecidableEq

/-- One `io.to(room).emit(name, payload)` publish. -/
structure Event where
  room : String
  name : String
  payload : Payload
deriving Repr, DecidableEq

/-- JSON response bodies of the modelled routes. -/
inductive Body where
  | tdisplay (t : TDisplay)
  | tdisplays (ts : List TDisplay)
  | menuB (m : Menu)
  | itemB (it : Item)
  | pairedB (message : String) (displayId : Id) (displayName : String)
  | regenB (message : String) (pairingCode : String)
  | msg (message : String)
  | errJson (error : String)
  | nullB
deriving Repr, DecidableEq

/-- The outcome of one HTTP request: the store afterwards, the socket events
emitted, the HTTP status and the body. -/
structure HOut where
  store : Store
  events : List Event
  status : Nat
  body : Body
deriving Repr, DecidableEq

/-! ### The unique sparse index on `pairingCode`

`src/models/Display.js` lines 9-13 declares `pairingCode` `unique: true,
sparse: true`: a save whose (non-null) code equals the code of a *different*
document is rejected by MongoDB with a duplicate-key error, which each
handler's `catch` turns into a generic 500. -/

def codeConflict (s : Store) (selfId : Option Id) (code : Option String) : Bool :=
  match code with
  | none => false
  | some c =>
    s.displays.any (fun d => d.pairingCode == some c && !(selfId == some d.id))

/-! ### The `pre('save')` hook

`src/models/Display.js` lines 31-36: if the document's `pairingCode` is
falsy (`undefined`, `null` or `""`) when saved, a fresh code is generated.
The hook draws its own random fraction, `hookDs`. -/

def hookPairingCode (cur : Option String) (hookDs : List (Fin 36)) : String :=
  match cur with
  | none => genPairingCode hookDs
  | some c => if c = "" then genPairingCode hookDs else c

/-! ### Display routes (`src/routes/restaurants.js`, displays router) -/

/-- `POST /displays/restaurants/:restaurantId` (lines 189-220): verify
restaurant ownership (403 otherwise), build the display (the pre-save hook
assigns the pairing code, `ds` being the hook's random draw), save it (500
on a duplicate-key rejection), push its id onto the restaurant's `displays`,
emit `display-created` to `restaurant-{restaurantId}` with the transformed
display, and answer 201 with the transformed display.  MongoDB assigns the
fresh `_id`, passed here as `newId`. -/
def createDisplay (s : Store) (caller : Id) (restaurantId : Id) (name : String)
    (currentMenu : Option Id) (newId : Id) (ds : List (Fin 36)) : HOut :=
  match findRestaurant s restaurantId with
  | none => ⟨s, [], 403, Body.errJson "Access denied"⟩
  | some r =>
    if r.owner ≠ caller then ⟨s, [], 403, Body.errJson "Access denied"⟩
    else
      let code := hookPairingCode none ds
      let d : Display := ⟨newId, name, some code, currentMenu, none, none⟩
      if codeConflict s none (some code) then
        ⟨s, [], 500, Body.errJson "Failed to create display"⟩
      else
        let s1 : Store := { s with displays := s.displays ++ [d] }
        let r' : Restaurant := { r with displays := r.displays ++ [newId] }
        let s2 := saveRestaurant s1 r'
        let td := transformDisplay (rawDoc d)
        ⟨s2, [⟨"restaurant-" ++ toString restaurantId, "display-created",
               Payload.displayP td⟩], 201, Body.tdisplay td⟩

/-- `GET /displays/restaurants/:restaurantId` (lines 223-239): verify
ownership, fetch the restaurant's displays with `.populate('currentMenu')`,
answer with the transformed displays. -/
def getDisplays (s : Store) (caller : Id) (restaurantId : Id) : HOut :=
  match findRestaurant s restaurantId with
  | none => ⟨s, [], 403, Body.errJson "Access denied"⟩
  | some r =>
    if r.owner ≠ caller then ⟨s, [], 403, Body.errJson "Access denied"⟩
    else
      ⟨s, [], 200, Body.tdisplays
        ((s.displays.filter (fun d => r.displays.contains d.id)).map
          (fun d => transformDisplay (populateDoc s d)))⟩

/-- The document written by `PUT /displays/:displayId`: `name` is always
set (validated non-empty), `currentMenu` only when present in the body. -/
def updatedDisplayDoc (d : Display) (name : String) (currentMenu : Option Id) :
    Display :=
  let d1 := { d with name := name }
  match currentMenu with
  | some m => { d1 with currentMenu := some m }
  | none => d1

/-- `PUT /displays/:displayId` (lines 242-267): 404 when the display does
not resolve; **no ownership check**; update, save, emit `display-updated` to
`display-{displayId}` with the transformed (un-populated) display and answer
it. -/
def updateDisplay (s : Store) (caller : Id) (displayId : Id) (name : String)
    (currentMenu : Option Id) : HOut :=
  match findDisplay s displayId with
  | none => ⟨s, [], 404, Body.errJson "Display not found"⟩
  | some d =>
    let d2 := updatedDisplayDoc d name currentMenu
    let td := transformDisplay (rawDoc d2)
    ⟨saveDisplay s d2,
      [⟨"display-" ++ toString displayId, "display-updated", Payload.displayP td⟩],
      200, Body.tdisplay td⟩

/-- `POST /displays/pair` (lines 270-299), public: 400 when the body carries
no (or an empty, JS-falsy) code, 404 when the code does not resolve,
otherwise emit `display-paired` to `pairing-{pairingCode}` with the display
id and name, and answer 200. -/
def pairDisplay (s : Store) (pairingCode : Option String) : HOut :=
  match pairingCode with
  | none => ⟨s, [], 400, Body.errJson "Pairing code is required"⟩
  | some code =>
    if code = "" then ⟨s, [], 400, Body.errJson "Pairing code is required"⟩
    else
      match resolveCode s code with
      | none => ⟨s, [], 404, Body.errJson "Invalid pairing code"⟩
      | some d =>
        ⟨s, [⟨"pairing-" ++ code, "display-paired", Payload.pairedP d.id d.name⟩],
          200, Body.pairedB "Display paired successfully" d.id d.name⟩

/-- `GET /displays/pair/:pairingCode` (lines 302-316), public: resolve the
code (404 otherwise) with `.populate('currentMenu')` and answer the
transformed display. -/
def getDisplayByCode (s : Store) (pairingCode : String) : HOut :=
  match resolveCode s pairingCode with
  | none => ⟨s, [], 404, Body.errJson "Invalid pairing code"⟩
  | some d => ⟨s, [], 200, Body.tdisplay (transformDisplay (populateDoc s d))⟩

/-- `GET /displays/:displayId` (lines 319-333): fetch with populate, 404
when absent, answer the transformed display; no ownership check. -/
def getDisplay (s : Store) (caller : Id) (displayId : Id) : HOut :=
  match findDisplay s displayId with
  | none => ⟨s, [], 404, Body.errJson "Display not found"⟩
  | some d => ⟨s, [], 200, Body.tdisplay (transformDisplay (populateDoc s d))⟩

/-- `PATCH /displays/:displayId/assign-menu` (lines 336-383): 404 when the
display does not resolve; when a menu id is given it must resolve (404
otherwise); **no ownership check**; set `currentMenu := menuId || null`,
save, emit `menu-assigned` to `display-{displayId}` with the display id and
menu id, re-fetch with populate and answer the transformed display. -/
def assignMenu (s : Store) (caller : Id) (displayId : Id) (menuId : Option Id) :
    HOut :=
  match findDisplay s displayId with
  | none => ⟨s, [], 404, Body.errJson "Display not found"⟩
  | some d =>
    let proceed : HOut :=
      let d' := { d with currentMenu := menuId }
      let s' := saveDisplay s d'
      let body :=
        match findDisplay s' displayId with
        | some dd => Body.tdisplay (transformDisplay (populateDoc s' dd))
        | none => Body.nullB
      ⟨s', [⟨"display-" ++ toString displayId, "menu-assigned",
             Payload.menuAssignedP displayId menuId⟩], 200, body⟩
    match menuId with
    | some m =>
      match findMenu s m with
      | none => ⟨s, [], 404, Body.errJson "Menu not found"⟩
      | some _ => proceed
    | none => proceed

/-- `POST /displays/:displayId/upload-media` (lines 386-430): 400 without a
file, 404 when the display does not resolve; **no ownership check**; set
`mediaType` from the mime prefix and `mediaUrl` to the stored path, save,
emit `media-uploaded` to `display-{displayId}`, answer the transformed
(un-populated) display. -/
def uploadMedia (s : Store) (caller : Id) (displayId : Id) (hasFile : Bool)
    (filename : String) (isImage : Bool) : HOut :=
  if !hasFile then ⟨s, [], 400, Body.errJson "No file uploaded"⟩
  else
    match findDisplay s displayId with
    | none => ⟨s, [], 404, Body.errJson "Display not found"⟩
    | some d =>
      let mediaType := if isImage then "image" else "video"
      let mediaUrl := "/uploads/" ++ filename
      let d' := { d with mediaUrl := some mediaUrl, mediaType := some mediaType }
      let td := transformDisplay (rawDoc d')
      ⟨saveDisplay s d',
        [⟨"display-" ++ toString displayId, "media-uploaded",
          Payload.mediaUploadedP displayId mediaUrl mediaType⟩],
        200, Body.tdisplay td⟩

/-- `DELETE /displays/:displayId/media` (lines 433-456): 404 when the
display does not resolve; **no ownership check**; clear both media fields,
save, emit `media-removed` to `display-{displayId}`, answer the transformed
display. -/
def removeMedia (s : Store) (caller : Id) (displayId : Id) : HOut :=
  match findDisplay s displayId with
  | none => ⟨s, [], 404, Body.errJson "Display not found"⟩
  | some d =>
    let d' := { d with mediaUrl := none, mediaType := none }
    let td := transformDisplay (rawDoc d')
    ⟨saveDisplay s d',
      [⟨"display-" ++ toString displayId, "media-removed",
        Payload.mediaRemovedP displayId⟩],
      200, Body.tdisplay td⟩

/-- `PATCH /displays/:displayId/regenerate-pairing-code` (lines 459-480):
404 when the display does not resolve; **no ownership check**; assign
`Math.random().toString(36).substring(2, 8).toUpperCase()` (the pre-save
hook replaces it by its own draw `hookDs` only in the JS-falsy `""` corner),
save (500 on a duplicate-key rejection), answer 200 with the new code.
**No socket event is emitted by this route.** -/
def regeneratePairingCode (s : Store) (caller : Id) (displayId : Id)
    (ds hookDs : List (Fin 36)) : HOut :=
  match findDisplay s displayId with
  | none => ⟨s, [], 404, Body.errJson "Display not found"⟩
  | some d =>
    let newCode := hookPairingCode (some (genPairingCode ds)) hookDs
    if codeConflict s (some d.id) (some newCode) then
      ⟨s, [], 500, Body.errJson "Failed to regenerate pairing code"⟩
    else
      ⟨saveDisplay s { d with pairingCode := some newCode }, [],
        200, Body.regenB "New pairing code generated" newCode⟩

/-- `DELETE /displays/:displayId` (lines 483-511): 404 when the display does
not resolve; **no ownership check**; remove the id from the (first)
restaurant whose `displays` contains it, delete the display, emit
`display-deleted` to `display-{displayId}`, answer 200. -/
def deleteDisplay (s : Store) (caller : Id) (displayId : Id) : HOut :=
  match findDisplay s displayId with
  | none => ⟨s, [], 404, Body.errJson "Display not found"⟩
  | some _ =>
    let s1 :=
      match s.restaurants.find? (fun r => r.displays.contains displayId) with
      | some r =>
        saveRestaurant s { r with displays := r.displays.filter (fun i => !(i == displayId)) }
      | none => s
    let s2 := { s1 with displays := s1.displays.filter (fun d => !(d.id == displayId)) }
    ⟨s2, [⟨"display-" ++ toString displayId, "display-deleted",
           Payload.displayDeletedP displayId⟩],
      200, Body.msg "Display deleted successfully"⟩

/-! ### Menu routes (`src/routes/menus.js`) -/

/-- `PUT /menus/:menuId` (lines 90-117): 404 when the menu does not resolve;
**no ownership check** (any authenticated user may edit any menu);
`name = name || menu.name`, `description` only when provided, `items` only
when provided; save, emit `menu-updated` to `menu-{menuId}`, answer the
menu. -/
def updateMenu (s : Store) (caller : Id) (menuId : Id) (name : String)
    (description : Option String) (items : Option (List Id)) : HOut :=
  match findMenu s menuId with
  | none => ⟨s, [], 404, Body.errJson "Menu not found"⟩
  | some m =>
    let m1 := { m with name := if name = "" then m.name else name }
    let m2 :=
      match description with
      | some dsc => { m1 with description := some dsc }
      | none => m1
    let m3 :=
      match items with
      | some its => { m2 with items := its }
      | none => m2
    ⟨saveMenu s m3,
      [⟨"menu-" ++ toString menuId, "menu-updated", Payload.menuP m3⟩],
      200, Body.menuB m3⟩

/-- `DELETE /menus/:menuId` (lines 120-147): 404 when the menu does not
resolve; **no ownership check**; remove the id from the (first) restaurant
whose `menus` contains it, delete the menu, emit `menu-deleted` to
`menu-{menuId}`, answer 200.  **Displays referencing the menu are left
untouched.** -/
def deleteMenu (s : Store) (caller : Id) (menuId : Id) : HOut :=
  match findMenu s menuId with
  | none => ⟨s, [], 404, Body.errJson "Menu not found"⟩
  | some _ =>
    let s1 :=
      match s.restaurants.find? (fun r => r.menus.contains menuId) with
      | some r =>
        saveRestaurant s { r with menus := r.menus.filter (fun i => !(i == menuId)) }
      | none => s
    let s2 := { s1 with menus := s1.menus.filter (fun m => !(m.id == menuId)) }
    ⟨s2, [⟨"menu-" ++ toString menuId, "menu-deleted", Payload.menuDeletedP menuId⟩],
      200, Body.msg "Menu deleted successfully"⟩

/-! ### Item routes (`src/routes/items.js`) -/

/-- `PATCH /items/:itemId/toggle` (lines 134-164): 404 when the item does
not resolve; ownership **is** verified through the item's restaurant (403
otherwise); flip `isAvailable`, save, emit exactly one
`item-availability-changed` to `restaurant-{item.restaurant}` with the item
id and the new boolean, answer the item. -/
def toggleItem (s : Store) (caller : Id) (itemId : Id) : HOut :=
  match findItem s itemId with
  | none => ⟨s, [], 404, Body.errJson "Item not found"⟩
  | some it =>
    match findRestaurant s it.restaurant with
    | none => ⟨s, [], 403, Body.errJson "Access denied"⟩
    | some r =>
      if r.owner ≠ caller then ⟨s, [], 403, Body.errJson "Access denied"⟩
      else
        let it' := { it with isAvailable := !it.isAvailable }
        ⟨saveItem s it',
          [⟨"restaurant-" ++ toString it.restaurant, "item-availability-changed",
            Payload.itemAvailP it.id it'.isAvailable⟩],
          200, Body.itemB it'⟩

/-! ### Routing and authentication (`src/index.js` lines 128-133)

`src/index.js` — the entry point the Dockerfile starts (`CMD ["node",
"index.js"]`) — mounts the displays router with no router-level middleware:
`app.use('/displays', displayRoutes)`.  Inside the router every route names
`authenticateToken` in its chain except `POST /pair` and
`GET /pair/:pairingCode`. -/

/-- One request to the displays router. -/
inductive DisplayReq where
  | create (restaurantId : Id) (name : String) (currentMenu : Option Id)
      (ds : List (Fin 36))
  | listAll (restaurantId : Id)
  | update (displayId : Id) (name : String) (currentMenu : Option Id)
  | pairPost (pairingCode : Option String)
  | pairGet (pairingCode : String)
  | getOne (displayId : Id)
  | assign (displayId : Id) (menuId : Option Id)
  | upload (displayId : Id) (hasFile : Bool) (filename : String) (isImage : Bool)
  | clearMedia (displayId : Id)
  | regen (displayId : Id) (ds hookDs : List (Fin 36))
  | remove (displayId : Id)
deriving Repr, DecidableEq

/-- Whether the route's middleware chain contains `authenticateToken`
(`src/routes/restaurants.js`, displays router: every route except the two
pairing routes). -/
def routeUsesAuth : DisplayReq → Bool
  | DisplayReq.pairPost _ => false
  | DisplayReq.pairGet _ => false
  | _ => true

/-- The handler body, dispatched on the route, with the resolved caller. -/
def runDisplayHandler (s : Store) (caller : Id) (newId : Id) :
    DisplayReq → HOut
  | DisplayReq.create rid name cm ds => createDisplay s caller rid name cm newId ds
  | DisplayReq.listAll rid => getDisplays s caller rid
  | DisplayReq.update i name cm => updateDisplay s caller i name cm
  | DisplayReq.pairPost c => pairDisplay s c
  | DisplayReq.pairGet c => getDisplayByCode s c
  | DisplayReq.getOne i => getDisplay s caller i
  | DisplayReq.assign i mid => assignMenu s caller i mid
  | DisplayReq.upload i hf fn im => uploadMedia s caller i hf fn im
  | DisplayReq.clearMedia i => removeMedia s caller i
  | DisplayReq.regen i ds hookDs => regeneratePairingCode s caller i ds hookDs
  | DisplayReq.remove i => deleteDisplay s caller i

/-- Modelled from the spec (section 7): `authenticateToken`
(`src/middleware/auth.js` is not among the provided sources) rejects a
request carrying no resolvable bearer credential with `Unauthenticated`
(401) and otherwise attaches the resolved user.  Dispatch of one request to
the displays router as mounted in `src/index.js`: the middleware runs
exactly on the routes that name it. -/
def dispatchDisplays (s : Store) (auth : Option Id) (req : DisplayReq)
    (newId : Id) : HOut :=
  if routeUsesAuth req && auth.isNone then
    ⟨s, [], 401, Body.errJson "Unauthenticated"⟩
  else
    runDisplayHandler s (auth.getD 0) newId req

/-! ## Generic list lemmas about the store operations -/

/-- Replacing the keyed element and then looking it up by the same key finds
the replacement, provided the replacement keeps the key. -/
theorem find?_update_eq {α : Type} (l : List α) (key : α → Nat) (k : Nat)
    (f : α → α) (hf : ∀ x, key x = k → key (f x) = k) :
    (l.map (fun x => if key x == k then f x else x)).find? (fun x => key x == k)
      = (l.find? (fun x => key x == k)).map f := by
  rw [List.find?_map]
  have hpg : ((fun x => key x == k) ∘ (fun x => if key x == k then f x else x))
      = (fun x => key x == k) := by
    funext x
    by_cases h : key x = k
    · simp [Function.comp, h, hf x h]
    · simp [Function.comp, h]
  rw [hpg]
  cases hfind : l.find? (fun x => key x == k) with
  | none => rfl
  | some a =>
    have ha : key a = k := by simpa using List.find?_some hfind
    simp [ha]

/-- After filtering the key out, lookup by that key fails. -/
theorem find?_filter_not_none {α : Type} (l : List α) (p : α → Bool) :
    (l.filter (fun x => !(p x))).find? p = none := by
  rw [List.find?_eq_none]
  intro x hx
  simpa using (List.mem_filter.mp hx).2

/-- In a list with nodup keys, two members sharing a key are equal. -/
theorem eq_of_nodup_key {α : Type} (l : List α) (key : α → Nat)
    (hnd : (l.map key).Nodup) (x y : α) (hx : x ∈ l) (hy : y ∈ l)
    (hkey : key x = key y) : x = y := by
  induction l with
  | nil => cases hx
  | cons a l ih =>
    rw [List.map_cons, List.nodup_cons] at hnd
    rcases List.mem_cons.mp hx with rfl | hx' <;>
      rcases List.mem_cons.mp hy with rfl | hy'
    · rfl
    · exact absurd (hkey ▸ List.mem_map_of_mem key hy') hnd.1
    · exact absurd (hkey ▸ List.mem_map_of_mem key hx') hnd.1
    · exact ih hnd.2 hx' hy'

/-! ## Lemmas about pairing-code resolution across a save -/

/-- After the regenerate save, the old code no longer resolves: every
holder of the old code was the regenerated display itself, and its stored
code is now different. -/
theorem resolve_save_old_none (l : List Display) (i : Id) (d' : Display)
    (old : String) (hd' : d'.pairingCode ≠ some old)
    (hall : ∀ x ∈ l, x.pairingCode = some old → x.id = i) :
    (l.map (fun x => if x.id == i then d' else x)).find?
      (fun x => x.pairingCode == some old) = none := by
  rw [List.find?_eq_none]
  intro y hy
  rcases List.mem_map.mp hy with ⟨x, hx, rfl⟩
  by_cases h : x.id = i
  · simp [h, hd']
  · simp only [h, beq_iff_eq, if_false, beq_eq_false_iff_ne, ne_eq]
    intro hcontra
    exact h (hall x hx (by simpa using hcontra))

/-- After the regenerate save, the new code resolves to the regenerated
display, provided the new code was fresh beforehand. -/
theorem resolve_save_new_some (l : List Display) (i : Id) (d d' : Display)
    (new : String) (hfind : l.find? (fun x => x.id == i) = some d)
    (hd' : d'.pairingCode = some new)
    (hfresh : ∀ x ∈ l, x.pairingCode ≠ some new) :
    (l.map (fun x => if x.id == i then d' else x)).find?
      (fun x => x.pairingCode == some new) = some d' := by
  induction l with
  | nil => simp at hfind
  | cons a l ih =>
    by_cases h : a.id = i
    · have hga : (if a.id == i then d' else a) = d' := by simp [h]
      rw [List.map_cons, hga]
      exact List.find?_cons_of_pos _ (by simp [hd'])
    · rw [List.find?_cons_of_neg _ (by simp [h])] at hfind
      have hga : (if a.id == i then d' else a) = a := by simp [h]
      rw [List.map_cons, hga, List.find?_cons_of_neg _
        (by simpa using hfresh a (List.mem_cons_self a l))]
      exact ih hfind (fun x hx => hfresh x (List.mem_cons_of_mem _ hx))

/-- Before the regenerate save, the old code resolves to the display it
belongs to. -/
theorem resolve_pre_old (l : List Display) (i : Id) (d : Display)
    (old : String) (hfind : l.find? (fun x => x.id == i) = some d)
    (hold : d.pairingCode = some old)
    (hall : ∀ x ∈ l, x.pairingCode = some old → x.id = i) :
    l.find? (fun x => x.pairingCode == some old) = some d := by
  induction l with
  | nil => simp at hfind
  | cons a l ih =>
    by_cases hc : a.pairingCode = some old
    · have hai : a.id = i := hall a (List.mem_cons_self a l) hc
      rw [List.find?_cons_of_pos _ (by simp [hai])] at hfind
      obtain rfl : a = d := by injection hfind
      exact List.find?_cons_of_pos _ (by simp [hc])
    · rw [List.find?_cons_of_neg _ (by simp [hc])]
      by_cases hai : a.id = i
      · rw [List.find?_cons_of_pos _ (by simp [hai])] at hfind
        obtain rfl : a = d := by injection hfind
        exact absurd hold hc
      · rw [List.find?_cons_of_neg _ (by simp [hai])] at hfind
        exact ih hfind (fun x hx => hall x (List.mem_cons_of_mem _ hx))

/-! ## Generator facts -/

/-- Membership in the fixed output alphabet `0-9A-Z`. -/
def isUpperAlnum (c : Char) : Bool :=
  if ('0' ≤ c ∧ c ≤ '9') ∨ ('A' ≤ c ∧ c ≤ 'Z') then true else false

theorem upper_base36_mem_alphabet :
    ∀ d : Fin 36, isUpperAlnum (jsUpperChar (base36Char d)) = true := by decide

theorem genPairingCode_chars (ds : List (Fin 36)) (h : ds ≠ []) :
    (genPairingCode ds).toList
      = ((ds.map base36Char).take 6).map jsUpperChar := by
  unfold genPairingCode jsToUpperCase jsSubstring jsNumToString36
  simp only [List.isEmpty_eq_true, h, if_false]
  cases ds with
  | nil => exact absurd rfl h
  | cons a l =>
    show (((("0." ++ String.mk (List.map base36Char (a :: l))).toList).drop 2).take 6).map
        jsUpperChar = _
    have : ("0." ++ String.mk (List.map base36Char (a :: l))).toList
        = '0' :: '.' :: List.map base36Char (a :: l) := by
      show ("0." ++ String.mk (List.map base36Char (a :: l))).data = _
      rw [String.data_append]
      rfl
    rw [this]
    rfl

/-! ## Claim C3 -/

/-- A store with one display, used to exercise the regenerate route. -/
def c3Store : Store :=
  { restaurants := [], menus := [],
    items := [],
    displays := [⟨60, "D", some "OLDCOD", none, none, none⟩] }

/-- Claim C3, counterexample: `Math.random()` can return exactly `0.5`, and
`(0.5).toString(36)` is `"0.i"` (digit expansion `[18]`), so
`substring(2, 8).toUpperCase()` yields the one-character code `"I"`: the
regenerate route commits a code of length 1, not 6. -/
theorem claim_C3_counterexample :
    (regeneratePairingCode c3Store 7 60 [18] []).status = 200 ∧
    (regeneratePairingCode c3Store 7 60 [18] []).body
      = Body.regenB "New pairing code generated" "I" ∧
    ¬((genPairingCode [18]).length = 6) := by
  refine ⟨by decide, by decide, by decide⟩

/-- Claim C3 (amended): every code produced by the generator (used both by
the display pre-save hook and by the regenerate route) is drawn from the
fixed alphabet `0-9A-Z`, and its length is `min 6 k` where `k` is the
number of digits `toString(36)` prints for the random fraction — at most 6,
and exactly 6 only when the expansion has at least 6 digits. -/
theorem claim_C3_amended :
    ∀ ds : List (Fin 36),
      (genPairingCode ds).length = min 6 ds.length ∧
      (genPairingCode ds).toList.all isUpperAlnum = true := by
  intro ds
  by_cases h : ds = []
  · subst h
    exact ⟨by decide, by decide⟩
  · have hc := genPairingCode_chars ds h
    constructor
    · have hlen : (genPairingCode ds).length = (genPairingCode ds).toList.length := rfl
      rw [hlen, hc]
      simp [List.length_take]
    · rw [List.all_eq_true, hc]
      intro c hcm
      rcases List.mem_map.mp hcm with ⟨c', hc', rfl⟩
      rcases List.mem_map.mp (List.take_subset _ _ hc') with ⟨d, _, rfl⟩
      exact upper_base36_mem_alphabet d

/-! ## Claim C5 -/

/-- Claim C5: the pairing endpoints `POST /displays/pair` and
`GET /displays/pair/:pairingCode`, as mounted in `src/index.js`, carry no
`authenticateToken` middleware: an anonymous request is never answered 401
and is processed exactly as an authenticated one. -/
theorem claim_C5_pairing_routes_public :
    ∀ (s : Store) (c : Option String) (code : String) (u newId : Id),
      dispatchDisplays s none (DisplayReq.pairPost c) newId
        = dispatchDisplays s (some u) (DisplayReq.pairPost c) newId ∧
      (dispatchDisplays s none (DisplayReq.pairPost c) newId).status ≠ 401 ∧
      dispatchDisplays s none (DisplayReq.pairGet code) newId
        = dispatchDisplays s (some u) (DisplayReq.pairGet code) newId ∧
      (dispatchDisplays s none (DisplayReq.pairGet code) newId).status ≠ 401 := by
  intro s c code u newId
  refine ⟨rfl, ?_, rfl, ?_⟩
  · show (pairDisplay s c).status ≠ 401
    cases c with
    | none => simp [pairDisplay]
    | some cc =>
      by_cases hc : cc = ""
      · simp [pairDisplay, hc]
      · cases hr : resolveCode s cc <;> simp [pairDisplay, hc, hr]
  · show (getDisplayByCode s code).status ≠ 401
    cases hr : resolveCode s code <;> simp [getDisplayByCode, hr]

/-! ## Claim C10 -/

/-- The fields of a display other than its pairing code. -/
def displayFrame (d : Display) :
    Id × String × Option Id × Option String × Option String :=
  (d.id, d.name, d.currentMenu, d.mediaUrl, d.mediaType)

/-- Claim C10: the regenerate route publishes no event to any room, and the
store change is confined to the target display's `pairingCode`: every other
collection and every non-code display field is unchanged. -/
theorem claim_C10_regenerate_frame (s : Store) (caller displayId : Id)
    (ds hookDs : List (Fin 36))
    (hnd : (s.displays.map (fun d => d.id)).Nodup) :
    (regeneratePairingCode s caller displayId ds hookDs).events = [] ∧
    (regeneratePairingCode s caller displayId ds hookDs).store.restaurants
      = s.restaurants ∧
    (regeneratePairingCode s caller displayId ds hookDs).store.menus = s.menus ∧
    (regeneratePairingCode s caller displayId ds hookDs).store.items = s.items ∧
    (regeneratePairingCode s caller displayId ds hookDs).store.displays.map
        displayFrame
      = s.displays.map displayFrame := by
  cases hfind : findDisplay s displayId with
  | none =>
    have hout : regeneratePairingCode s caller displayId ds hookDs
        = ⟨s, [], 404, Body.errJson "Display not found"⟩ := by
      simp [regeneratePairingCode, hfind]
    rw [hout]
    exact ⟨rfl, rfl, rfl, rfl, rfl⟩
  | some d =>
    have hmem : d ∈ s.displays := List.mem_of_find?_eq_some hfind
    cases hcc : codeConflict s (some d.id)
        (some (hookPairingCode (some (genPairingCode ds)) hookDs)) with
    | true =>
      have hout : regeneratePairingCode s caller displayId ds hookDs
          = ⟨s, [], 500, Body.errJson "Failed to regenerate pairing code"⟩ := by
        simp [regeneratePairingCode, hfind, hcc]
      rw [hout]
      exact ⟨rfl, rfl, rfl, rfl, rfl⟩
    | false =>
      have hout : regeneratePairingCode s caller displayId ds hookDs
          = ⟨saveDisplay s { d with pairingCode := some (hookPairingCode (some (genPairingCode ds)) hookDs) }, [], 200, Body.regenB "New pairing code generated" (hookPairingCode (some (genPairingCode ds)) hookDs)⟩ := by
        simp [regeneratePairingCode, hfind, hcc]
      rw [hout]
      refine ⟨rfl, rfl, rfl, rfl, ?_⟩
      simp only [saveDisplay]
      rw [List.map_map]
      refine List.map_congr_left (fun x hx => ?_)
      by_cases h : x.id = d.id
      · have hxd : x = d := eq_of_nodup_key s.displays (fun y => y.id) hnd x d hx hmem h
        subst hxd
        simp [displayFrame]
      · simp [Function.comp, displayFrame, h]

/-! ## Claim C1 -/

/-- Claim C1: regenerating a display's pairing code is one store write; in
the pre-state the old code resolves to the display and the new code
resolves to nothing, in the post-state the old code resolves to nothing and
the new code resolves to the same display id.  The hypotheses are the
unique-sparse-index invariant on stored codes, that the drawn code differs
from the old one, and that it collides with no stored code (otherwise the
save itself is rejected). -/
theorem claim_C1_regenerate_atomic (s : Store) (caller displayId : Id)
    (d : Display) (old : String) (ds hookDs : List (Fin 36))
    (hfind : findDisplay s displayId = some d)
    (hold : d.pairingCode = some old)
    (huniq : ∀ d1 ∈ s.displays, ∀ d2 ∈ s.displays,
        d1.pairingCode ≠ none → d1.pairingCode = d2.pairingCode → d1.id = d2.id)
    (hne : hookPairingCode (some (genPairingCode ds)) hookDs ≠ old)
    (hfresh : ∀ x ∈ s.displays,
        x.pairingCode ≠ some (hookPairingCode (some (genPairingCode ds)) hookDs)) :
    (regeneratePairingCode s caller displayId ds hookDs).status = 200 ∧
    resolveCode s old = some d ∧
    resolveCode s (hookPairingCode (some (genPairingCode ds)) hookDs) = none ∧
    resolveCode (regeneratePairingCode s caller displayId ds hookDs).store old
      = none ∧
    (resolveCode (regeneratePairingCode s caller displayId ds hookDs).store
        (hookPairingCode (some (genPairingCode ds)) hookDs)).map (fun x => x.id)
      = some d.id := by
  have hfind' : s.displays.find? (fun x => x.id == displayId) = some d := hfind
  have hdi : d.id = displayId := by simpa using List.find?_some hfind'
  have hall : ∀ x ∈ s.displays, x.pairingCode = some old → x.id = displayId := by
    intro x hx hcode
    have hmem : d ∈ s.displays := List.mem_of_find?_eq_some hfind'
    have := huniq x hx d hmem (by rw [hcode]; exact Option.some_ne_none _)
      (by rw [hcode, hold])
    rw [this, hdi]
  have hcc : codeConflict s (some d.id)
      (some (hookPairingCode (some (genPairingCode ds)) hookDs)) = false := by
    unfold codeConflict
    rw [List.any_eq_false]
    intro x hx
    simp [hfresh x hx]
  have hout : regeneratePairingCode s caller displayId ds hookDs
      = ⟨saveDisplay s { d with pairingCode := some (hookPairingCode (some (genPairingCode ds)) hookDs) }, [], 200, Body.regenB "New pairing code generated" (hookPairingCode (some (genPairingCode ds)) hookDs)⟩ := by
    simp [regeneratePairingCode, hfind, hcc]
  refine ⟨by rw [hout], ?_, ?_, ?_, ?_⟩
  · exact resolve_pre_old s.displays displayId d old hfind' hold hall
  · show s.displays.find?
        (fun x => x.pairingCode
          == some (hookPairingCode (some (genPairingCode ds)) hookDs)) = none
    rw [List.find?_eq_none]
    intro x hx
    simpa using hfresh x hx
  · rw [hout]
    show (s.displays.map (fun x => if x.id == d.id then _ else x)).find?
        (fun x => x.pairingCode == some old) = none
    exact resolve_save_old_none s.displays d.id _ old
      (by simpa using fun hcontra => hne (by simpa using hcontra))
      (fun x hx hcode => by rw [hall x hx hcode, hdi])
  · rw [hout]
    show ((s.displays.map (fun x => if x.id == d.id then _ else x)).find?
        (fun x => x.pairingCode
          == some (hookPairingCode (some (genPairingCode ds)) hookDs))).map
        (fun x => x.id) = some d.id
    rw [resolve_save_new_some s.displays d.id d
        { d with pairingCode := some (hookPairingCode (some (genPairingCode ds)) hookDs) }
        (hookPairingCode (some (genPairingCode ds)) hookDs)
        (by rw [hdi]; exact hfind') rfl hfresh]
    rfl

/-! ## Claim C2 -/

/-- Claim C2: when display creation completes (status 201, so the save was
not rejected), the stored display's `pairingCode` is non-null — the
pre-save hook filled it — and looking that code up returns exactly that
display.  `newId` is the fresh id MongoDB assigns. -/
theorem claim_C2_created_code_resolves (s : Store) (caller restaurantId : Id)
    (name : String) (currentMenu : Option Id) (newId : Id) (ds : List (Fin 36))
    (hfreshId : ∀ x ∈ s.displays, x.id ≠ newId)
    (h201 : (createDisplay s caller restaurantId name currentMenu newId ds).status
      = 201) :
    findDisplay (createDisplay s caller restaurantId name currentMenu newId ds).store
        newId
      = some ⟨newId, name, some (genPairingCode ds), currentMenu, none, none⟩ ∧
    resolveCode (createDisplay s caller restaurantId name currentMenu newId ds).store
        (genPairingCode ds)
      = some ⟨newId, name, some (genPairingCode ds), currentMenu, none, none⟩ := by
  cases hr : findRestaurant s restaurantId with
  | none => rw [createDisplay, hr] at h201; cases h201
  | some r =>
    by_cases howner : r.owner ≠ caller
    · rw [createDisplay, hr] at h201
      simp only [if_pos howner] at h201
      cases h201
    · cases hcc : codeConflict s none (some (hookPairingCode none ds)) with
      | true =>
        rw [createDisplay, hr] at h201
        simp only [if_neg howner, hcc, if_true] at h201
        cases h201
      | false =>
        have hout : (createDisplay s caller restaurantId name currentMenu newId ds).store.displays
            = s.displays ++ [⟨newId, name, some (genPairingCode ds), currentMenu, none, none⟩] := by
          rw [createDisplay, hr]
          simp only [if_neg howner, hcc]
          rfl
        have hprefix_id : s.displays.find? (fun x => x.id == newId) = none := by
          rw [List.find?_eq_none]
          intro x hx
          simpa using hfreshId x hx
        have hprefix_code :
            s.displays.find? (fun x => x.pairingCode == some (genPairingCode ds))
              = none := by
          rw [List.find?_eq_none]
          intro x hx
          have := (List.any_eq_false.mp hcc) x hx
          simpa using this
        constructor
        · show (createDisplay s caller restaurantId name currentMenu newId ds).store.displays.find?
              (fun x => x.id == newId) = _
          rw [hout, List.find?_append, hprefix_id]
          simp
        · show (createDisplay s caller restaurantId name currentMenu newId ds).store.displays.find?
              (fun x => x.pairingCode == some (genPairingCode ds)) = _
          rw [hout, List.find?_append, hprefix_code]
          simp

/-! ## Claim C9 -/

/-- Claim C9: deleting a menu removes it from its restaurant's `menus` list
and from the menu collection, but leaves every display document — in
particular any `currentMenu` reference to the deleted menu — untouched, so
such references dangle.  `honce` is the invariant that a menu belongs to
one restaurant. -/
theorem claim_C9_delete_menu_dangles (s : Store) (caller menuId : Id)
    (m : Menu) (hm : findMenu s menuId = some m)
    (honce : ∀ r1 ∈ s.restaurants, ∀ r2 ∈ s.restaurants,
        menuId ∈ r1.menus → menuId ∈ r2.menus → r1 = r2) :
    (deleteMenu s caller menuId).status = 200 ∧
    findMenu (deleteMenu s caller menuId).store menuId = none ∧
    (deleteMenu s caller menuId).store.displays = s.displays ∧
    (∀ d ∈ s.displays, d.currentMenu = some menuId →
        d ∈ (deleteMenu s caller menuId).store.displays ∧
        d.currentMenu = some menuId) ∧
    (∀ r ∈ (deleteMenu s caller menuId).store.restaurants, menuId ∉ r.menus) := by
  cases hfr : s.restaurants.find? (fun r => r.menus.contains menuId) with
  | none =>
    have hout : deleteMenu s caller menuId
        = ⟨{ s with menus := s.menus.filter (fun x => !(x.id == menuId)) }, [⟨"menu-" ++ toString menuId, "menu-deleted", Payload.menuDeletedP menuId⟩], 200, Body.msg "Menu deleted successfully"⟩ := by
      unfold deleteMenu
      rw [hm, hfr]
    rw [hout]
    refine ⟨rfl, find?_filter_not_none _ _, rfl, fun d hd hcm => ⟨hd, hcm⟩, ?_⟩
    intro r hr hcontra
    have := List.find?_eq_none.mp hfr r hr
    simp [hcontra] at this
  | some r0 =>
    have hr0mem : menuId ∈ r0.menus := by
      have := List.find?_some hfr
      simpa using this
    have hout : deleteMenu s caller menuId
        = ⟨{ (saveRestaurant s { r0 with menus := r0.menus.filter (fun i => !(i == menuId)) }) with menus := s.menus.filter (fun x => !(x.id == menuId)) }, [⟨"menu-" ++ toString menuId, "menu-deleted", Payload.menuDeletedP menuId⟩], 200, Body.msg "Menu deleted successfully"⟩ := by
      unfold deleteMenu
      rw [hm, hfr]
      rfl
    rw [hout]
    refine ⟨rfl, find?_filter_not_none _ _, rfl, fun d hd hcm => ⟨hd, hcm⟩, ?_⟩
    intro r hr hcontra
    rcases List.mem_map.mp hr with ⟨x, hx, rfl⟩
    by_cases h : x.id = r0.id
    · simp only [h, beq_self_eq_true, if_true] at hcontra
      have := List.mem_filter.mp hcontra
      simp at this
    · simp [h] at hcontra
      have hx0 : x = r0 := honce x hx r0 (List.mem_of_find?_eq_some hfr) hcontra hr0mem
      exact h (by rw [hx0])

/-! ## Lookup after a save -/

/-- Saving a display and looking its id up finds the saved value. -/
theorem findDisplay_after_save (s : Store) (k : Id) (b : Display) (hbk : b.id = k)
    (hsome : (findDisplay s k).isSome) :
    findDisplay (saveDisplay s b) k = some b := by
  show (s.displays.map (fun x => if x.id == b.id then b else x)).find?
      (fun x => x.id == k) = some b
  simp only [hbk]
  rw [find?_update_eq s.displays (fun x => x.id) k (fun _ => b) (fun x _ => hbk)]
  rcases Option.isSome_iff_exists.mp hsome with ⟨a, ha⟩
  have ha' : s.displays.find? (fun x => x.id == k) = some a := ha
  rw [ha']
  rfl

/-! ## Claim C7 -/

/-- A store owned by user 7, used against claim C4: restaurant 1 owns menu
5, item 2 and display 60. -/
def c4Store : Store :=
  { restaurants := [⟨1, "R", 7, [5], [2], [60]⟩],
    menus := [⟨5, "Lunch", none, [2]⟩],
    items := [⟨2, "Burger", "Main", true, 1⟩],
    displays := [⟨60, "D", some "ABC", some 5, none, none⟩] }

/-- Claim C4, counterexample: authenticated user 9 owns no restaurant in
the store, yet `PUT /menus/5` succeeds with 200 instead of failing with
403 — the menu update handler never compares the caller to the owning
restaurant's owner. -/
theorem claim_C4_counterexample :
    (updateMenu c4Store 9 5 "Hacked" none none).status = 200 ∧
    (updateMenu c4Store 9 5 "Hacked" none none).status ≠ 403 ∧
    (∀ r ∈ c4Store.restaurants, r.owner ≠ 9) := by
  refine ⟨by decide, by decide, by decide⟩

/-- Whether an optional menu id passes the assign-menu existence check. -/
def menuOk (s : Store) (mid : Option Id) : Bool :=
  match mid with
  | none => true
  | some m => (findMenu s m).isSome

/-- Claim C4 (amended): only the restaurant-scoped routes and the item
routes re-verify ownership.  The per-menu routes (update, delete) and the
per-display routes (update, assign-menu, regenerate-pairing-code, delete)
only require an authenticated caller: they succeed with 200 for *any*
authenticated user whenever the target exists (and, for regenerate, the
save is not rejected), while e.g. the item toggle route answers 403 to a
non-owner. -/
theorem claim_C4_amended :
    (∀ (s : Store) (caller menuId : Id) (m : Menu) (name : String)
        (dsc : Option String) (its : Option (List Id)),
        findMenu s menuId = some m →
        (updateMenu s caller menuId name dsc its).status = 200) ∧
    (∀ (s : Store) (caller menuId : Id) (m : Menu),
        findMenu s menuId = some m →
        (deleteMenu s caller menuId).status = 200) ∧
    (∀ (s : Store) (caller displayId : Id) (d : Display) (name : String)
        (cm : Option Id),
        findDisplay s displayId = some d →
        (updateDisplay s caller displayId name cm).status = 200) ∧
    (∀ (s : Store) (caller displayId : Id) (d : Display) (mid : Option Id),
        findDisplay s displayId = some d → menuOk s mid = true →
        (assignMenu s caller displayId mid).status = 200) ∧
    (∀ (s : Store) (caller displayId : Id) (d : Display)
        (ds hookDs : List (Fin 36)),
        findDisplay s displayId = some d →
        codeConflict s (some d.id)
          (some (hookPairingCode (some (genPairingCode ds)) hookDs)) = false →
        (regeneratePairingCode s caller displayId ds hookDs).status = 200) ∧
    (∀ (s : Store) (caller displayId : Id) (d : Display),
        findDisplay s displayId = some d →
        (deleteDisplay s caller displayId).status = 200) ∧
    (∀ (s : Store) (caller itemId : Id) (it : Item) (r : Restaurant),
        findItem s itemId = some it →
        findRestaurant s it.restaurant = some r → r.owner ≠ caller →
        (toggleItem s caller itemId).status = 403) := by
  refine ⟨?_, ?_, ?_, ?_, ?_, ?_, ?_⟩
  · intro s caller menuId m name dsc its hm
    unfold updateMenu
    rw [hm]
  · intro s caller menuId m hm
    unfold deleteMenu
    rw [hm]
  · intro s caller displayId d name cm hd
    unfold updateDisplay
    rw [hd]
  · intro s caller displayId d mid hd hmid
    unfold assignMenu
    rw [hd]
    cases mid with
    | none => rfl
    | some m =>
      rcases Option.isSome_iff_exists.mp hmid with ⟨mm, hmm⟩
      show (match findMenu s m with
        | none => ({ store := s, events := [], status := 404,
                     body := Body.errJson "Menu not found" } : HOut)
        | some _ => _).status = 200
      rw [hmm]
  · intro s caller displayId d ds hookDs hd hcc
    simp [regeneratePairingCode, hd, hcc]
  · intro s caller displayId d hd
    unfold deleteDisplay
    rw [hd]
  · intro s caller itemId it r hit hr hno
    unfold toggleItem
    rw [hit]
    simp only [hr]
    rw [if_pos hno]

/-! ## Claim C8 -/

/-- A store in which display 50 already holds pairing code `"ABC"`; a
concurrent creation whose random draw `[10, 11, 12]` also prints `"ABC"`
races on the unique index. -/
def c8Store : Store :=
  { restaurants := [⟨1, "R", 7, [], [], [50]⟩],
    menus := [], items := [],
    displays := [⟨50, "Old", some "ABC", none, none, none⟩] }

/-- Claim C8, counterexample: when the unique index rejects the racing
creation, the caller receives the handler's generic catch-all — status 500
with body `"Failed to create display"`, the same body as any other internal
failure of this route — not a distinct `DuplicateCode` error. -/
theorem claim_C8_counterexample :
    hookPairingCode none [10, 11, 12] = "ABC" ∧
    resolveCode c8Store "ABC" = some ⟨50, "Old", some "ABC", none, none, none⟩ ∧
    (createDisplay c8Store 7 1 "New" none 51 [10, 11, 12]).status = 500 ∧
    (createDisplay c8Store 7 1 "New" none 51 [10, 11, 12]).body
      = Body.errJson "Failed to create display" ∧
    (createDisplay c8Store 7 1 "New" none 51 [10, 11, 12]).store = c8Store := by
  refine ⟨by decide, by decide, by decide, by decide, by decide⟩

/-- Claim C8 (amended): when the generated code collides with a stored one
(the store's unique index rejects the save), the creation request fails
with the generic 500 `"Failed to create display"` response, leaves the
store unchanged and emits nothing — no distinct `DuplicateCode` error
exists in the code. -/
theorem claim_C8_amended (s : Store) (caller restaurantId : Id)
    (r : Restaurant) (name : String) (cm : Option Id) (newId : Id)
    (ds : List (Fin 36)) (hr : findRestaurant s restaurantId = some r)
    (howner : r.owner = caller)
    (hdup : codeConflict s none (some (hookPairingCode none ds)) = true) :
    createDisplay s caller restaurantId name cm newId ds
      = ⟨s, [], 500, Body.errJson "Failed to create display"⟩ := by
  unfold createDisplay
  rw [hr]
  simp only [if_neg (fun hc : r.owner ≠ caller => hc howner), hdup, if_true]

/-! ## Claim C6 -/

/-- Display 60 references menu 5 without population, for the claim C6
counterexample. -/
def c6cStore : Store :=
  { restaurants := [⟨1, "R", 7, [5], [], [60]⟩],
    menus := [⟨5, "Lunch", some "d", [9]⟩], items := [],
    displays := [⟨60, "D", some "ABC", some 5, none, none⟩] }

/-- Claim C6, counterexample: on a bare un-populated reference the program
does **not** pass the id through.  The mongoose ObjectId `_id` getter makes
the `typeof === 'object' && ._id` test truthy, so `transformDisplay` wraps
the bare reference as `{id, name: undefined, description: undefined,
items: []}`, disagreeing with the spec's claimed pass-through
(`specNormalizeCM`); `PUT /displays/60` — an endpoint that answers with the
un-populated document — returns exactly that wrapped shape. -/
theorem claim_C6_counterexample :
    (transformDisplay ⟨60, "D", some "ABC", CMField.ref 5, none, none⟩).currentMenu
      = TCurrentMenu.menu 5 none none [] ∧
    specNormalizeCM (CMField.ref 5) = TCurrentMenu.refId 5 ∧
    (transformDisplay ⟨60, "D", some "ABC", CMField.ref 5, none, none⟩).currentMenu
      ≠ specNormalizeCM (CMField.ref 5) ∧
    (updateDisplay c6cStore 7 60 "N" none).body
      = Body.tdisplay ⟨60, "N", some "ABC", TCurrentMenu.menu 5 none none [],
          none, none⟩ := by
  refine ⟨by decide, by decide, by decide, by decide⟩

/-- Claim C6 (amended): `transformDisplay` normalizes the current-menu
field as `amendedNormalizeCM` (written from the amended claim's words)
prescribes — a populated menu flattened to `{id, name, description,
items}`, an absent reference to null, and a bare reference **wrapped** as
`{id, name: undefined, description: undefined, items: []}` because the
ObjectId `_id` getter routes it into the flattening branch — and every
endpoint that returns or broadcasts a display factors its display payloads
through `transformDisplay` of the fetched (raw or populated) document. -/
theorem claim_C6_amended :
    (∀ doc : DisplayDoc,
        transformDisplay doc
          = ⟨doc.id, doc.name, doc.pairingCode, amendedNormalizeCM doc.currentMenu,
             doc.mediaUrl, doc.mediaType⟩) ∧
    (∀ (s : Store) (caller restaurantId : Id) (name : String) (cm : Option Id)
        (newId : Id) (ds : List (Fin 36)),
        (createDisplay s caller restaurantId name cm newId ds).status = 201 →
        (createDisplay s caller restaurantId name cm newId ds).body
            = Body.tdisplay (transformDisplay
                (rawDoc ⟨newId, name, some (genPairingCode ds), cm, none, none⟩)) ∧
        (createDisplay s caller restaurantId name cm newId ds).events
            = [⟨"restaurant-" ++ toString restaurantId, "display-created",
                Payload.displayP (transformDisplay
                  (rawDoc ⟨newId, name, some (genPairingCode ds), cm, none, none⟩))⟩]) ∧
    (∀ (s : Store) (caller restaurantId : Id) (r : Restaurant),
        findRestaurant s restaurantId = some r → r.owner = caller →
        (getDisplays s caller restaurantId).body
          = Body.tdisplays ((s.displays.filter
              (fun d => r.displays.contains d.id)).map
              (fun d => transformDisplay (populateDoc s d)))) ∧
    (∀ (s : Store) (caller displayId : Id) (d : Display) (name : String)
        (cm : Option Id),
        findDisplay s displayId = some d →
        (updateDisplay s caller displayId name cm).body
            = Body.tdisplay (transformDisplay (rawDoc (updatedDisplayDoc d name cm))) ∧
        (updateDisplay s caller displayId name cm).events
            = [⟨"display-" ++ toString displayId, "display-updated",
                Payload.displayP (transformDisplay
                  (rawDoc (updatedDisplayDoc d name cm)))⟩]) ∧
    (∀ (s : Store) (code : String) (d : Display),
        resolveCode s code = some d →
        (getDisplayByCode s code).body
          = Body.tdisplay (transformDisplay (populateDoc s d))) ∧
    (∀ (s : Store) (caller displayId : Id) (d : Display),
        findDisplay s displayId = some d →
        (getDisplay s caller displayId).body
          = Body.tdisplay (transformDisplay (populateDoc s d))) ∧
    (∀ (s : Store) (caller displayId : Id) (d : Display) (mid : Option Id),
        findDisplay s displayId = some d → menuOk s mid = true →
        (assignMenu s caller displayId mid).body
          = Body.tdisplay (transformDisplay
              (populateDoc (assignMenu s caller displayId mid).store
                { d with currentMenu := mid }))) ∧
    (∀ (s : Store) (caller displayId : Id) (d : Display) (filename : String)
        (isImage : Bool),
        findDisplay s displayId = some d →
        (uploadMedia s caller displayId true filename isImage).body
          = Body.tdisplay (transformDisplay (rawDoc
              { d with mediaUrl := some ("/uploads/" ++ filename),
                       mediaType := some (if isImage then "image" else "video") }))) ∧
    (∀ (s : Store) (caller displayId : Id) (d : Display),
        findDisplay s displayId = some d →
        (removeMedia s caller displayId).body
          = Body.tdisplay (transformDisplay (rawDoc
              { d with mediaUrl := none, mediaType := none }))) := by
  refine ⟨?_, ?_, ?_, ?_, ?_, ?_, ?_, ?_, ?_⟩
  · intro doc
    rcases doc with ⟨i, n, pc, cm, mu, mt⟩
    cases cm <;> rfl
  · intro s caller restaurantId name cm newId ds h201
    cases hr : findRestaurant s restaurantId with
    | none => rw [createDisplay, hr] at h201; cases h201
    | some r =>
      by_cases howner : r.owner ≠ caller
      · rw [createDisplay, hr] at h201
        simp only [if_pos howner] at h201
        cases h201
      · cases hcc : codeConflict s none (some (hookPairingCode none ds)) with
        | true =>
          rw [createDisplay, hr] at h201
          simp only [if_neg howner, hcc, if_true] at h201
          cases h201
        | false =>
          constructor
          · rw [createDisplay, hr]
            simp only [if_neg howner, hcc]
            rfl
          · rw [createDisplay, hr]
            simp only [if_neg howner, hcc]
            rfl
  · intro s caller restaurantId r hr howner
    unfold getDisplays
    rw [hr]
    simp only [if_neg (fun hc : r.owner ≠ caller => hc howner)]
  · intro s caller displayId d name cm hd
    constructor
    · unfold updateDisplay
      rw [hd]
    · unfold updateDisplay
      rw [hd]
  · intro s code d hres
    unfold getDisplayByCode
    rw [hres]
  · intro s caller displayId d hd
    unfold getDisplay
    rw [hd]
  · intro s caller displayId d mid hd hmid
    have hd' : s.displays.find? (fun x => x.id == displayId) = some d := hd
    have hdi : d.id = displayId := by simpa using List.find?_some hd'
    have hafter : findDisplay (saveDisplay s { d with currentMenu := mid })
        displayId = some { d with currentMenu := mid } :=
      findDisplay_after_save s displayId { d with currentMenu := mid } hdi
        (by rw [hd]; rfl)
    cases mid with
    | none =>
      have hout : assignMenu s caller displayId none
          = ⟨saveDisplay s { d with currentMenu := none },
             [⟨"display-" ++ toString displayId, "menu-assigned",
               Payload.menuAssignedP displayId none⟩], 200,
             Body.tdisplay (transformDisplay
               (populateDoc (saveDisplay s { d with currentMenu := none })
                 { d with currentMenu := none }))⟩ := by
        unfold assignMenu
        rw [hd]
        show ({ store := saveDisplay s { d with currentMenu := none },
                events := [⟨"display-" ++ toString displayId, "menu-assigned",
                           Payload.menuAssignedP displayId none⟩],
                status := 200,
                body := match findDisplay (saveDisplay s { d with currentMenu := none })
                    displayId with
                  | some dd => Body.tdisplay (transformDisplay
                      (populateDoc (saveDisplay s { d with currentMenu := none }) dd))
                  | none => Body.nullB } : HOut)
            = _
        rw [hafter]
      rw [hout]
    | some m =>
      rcases Option.isSome_iff_exists.mp hmid with ⟨mm, hmm⟩
      have hout : assignMenu s caller displayId (some m)
          = ⟨saveDisplay s { d with currentMenu := some m },
             [⟨"display-" ++ toString displayId, "menu-assigned",
               Payload.menuAssignedP displayId (some m)⟩], 200,
             Body.tdisplay (transformDisplay
               (populateDoc (saveDisplay s { d with currentMenu := some m })
                 { d with currentMenu := some m }))⟩ := by
        unfold assignMenu
        rw [hd]
        show (match findMenu s m with
              | none => ({ store := s, events := [], status := 404,
                           body := Body.errJson "Menu not found" } : HOut)
              | some _ =>
                { store := saveDisplay s { d with currentMenu := some m },
                  events := [⟨"display-" ++ toString displayId, "menu-assigned",
                             Payload.menuAssignedP displayId (some m)⟩],
                  status := 200,
                  body := match findDisplay (saveDisplay s { d with currentMenu := some m })
                      displayId with
                    | some dd => Body.tdisplay (transformDisplay
                        (populateDoc (saveDisplay s { d with currentMenu := some m }) dd))
                    | none => Body.nullB })
            = _
        rw [hmm]
        show ({ store := saveDisplay s { d with currentMenu := some m },
                events := [⟨"display-" ++ toString displayId, "menu-assigned",
                           Payload.menuAssignedP displayId (some m)⟩],
                status := 200,
                body := match findDisplay (saveDisplay s { d with currentMenu := some m })
                    displayId with
                  | some dd => Body.tdisplay (transformDisplay
                      (populateDoc (saveDisplay s { d with currentMenu := some m }) dd))
                  | none => Body.nullB } : HOut)
            = _
        rw [hafter]
      rw [hout]
  · intro s caller displayId d filename isImage hd
    unfold uploadMedia
    show (match findDisplay s displayId with
          | none => ({ store := s, events := [], status := 404,
                       body := Body.errJson "Display not found" } : HOut)
          | some d => _).body = _
    rw [hd]
  · intro s caller displayId d hd
    unfold removeMedia
    rw [hd]

/-! ## Witnesses -/

/-- Two displays with distinct codes, for exercising claim C1. -/
def c1wStore : Store :=
  { restaurants := [], menus := [], items := [],
    displays := [⟨60, "D", some "OLD", none, none, none⟩,
                 ⟨61, "E", some "XYZ", none, none, none⟩] }

/-- Claim C1 witness: regenerating display 60's code with random draw
`[10, 11, 12]` (code `"ABC"`) flips resolution from `"OLD"` to `"ABC"`. -/
theorem claim_C1_regenerate_atomic_witness :
    (regeneratePairingCode c1wStore 9 60 [10, 11, 12] []).status = 200 ∧
    resolveCode c1wStore "OLD" = some ⟨60, "D", some "OLD", none, none, none⟩ ∧
    resolveCode c1wStore
      (hookPairingCode (some (genPairingCode [10, 11, 12])) []) = none ∧
    resolveCode (regeneratePairingCode c1wStore 9 60 [10, 11, 12] []).store "OLD"
      = none ∧
    (resolveCode (regeneratePairingCode c1wStore 9 60 [10, 11, 12] []).store
        (hookPairingCode (some (genPairingCode [10, 11, 12])) [])).map
        (fun x => x.id)
      = some 60 :=
  claim_C1_regenerate_atomic c1wStore 9 60
    ⟨60, "D", some "OLD", none, none, none⟩ "OLD" [10, 11, 12] []
    (by decide) (by decide) (by decide) (by decide) (by decide)

/-- One restaurant owned by user 7, for exercising claim C2. -/
def c2wStore : Store :=
  { restaurants := [⟨1, "R", 7, [], [], []⟩], menus := [], items := [],
    displays := [] }

/-- Claim C2 witness: creating a display under restaurant 1 with random
draw `[1, 2, 3, 4, 5, 6]` stores code `"123456"` and resolves it. -/
theorem claim_C2_created_code_resolves_witness :
    findDisplay (createDisplay c2wStore 7 1 "D" none 100 [1, 2, 3, 4, 5, 6]).store
        100
      = some ⟨100, "D", some (genPairingCode [1, 2, 3, 4, 5, 6]), none, none, none⟩ ∧
    resolveCode (createDisplay c2wStore 7 1 "D" none 100 [1, 2, 3, 4, 5, 6]).store
        (genPairingCode [1, 2, 3, 4, 5, 6])
      = some ⟨100, "D", some (genPairingCode [1, 2, 3, 4, 5, 6]), none, none, none⟩ :=
  claim_C2_created_code_resolves c2wStore 7 1 "D" none 100 [1, 2, 3, 4, 5, 6]
    (by decide) (by decide)

/-- Claim C4 (amended) witness: on `c4Store`, authenticated non-owner 9
succeeds on every per-menu and per-display mutation, and is refused only by
the item toggle. -/
theorem claim_C4_amended_witness :
    (updateMenu c4Store 9 5 "X" none none).status = 200 ∧
    (deleteMenu c4Store 9 5).status = 200 ∧
    (updateDisplay c4Store 9 60 "N" none).status = 200 ∧
    (assignMenu c4Store 9 60 (some 5)).status = 200 ∧
    (regeneratePairingCode c4Store 9 60 [1, 2, 3, 4, 5, 6] []).status = 200 ∧
    (deleteDisplay c4Store 9 60).status = 200 ∧
    (toggleItem c4Store 9 2).status = 403 :=
  ⟨claim_C4_amended.1 c4Store 9 5 ⟨5, "Lunch", none, [2]⟩ "X" none none (by decide),
   claim_C4_amended.2.1 c4Store 9 5 ⟨5, "Lunch", none, [2]⟩ (by decide),
   claim_C4_amended.2.2.1 c4Store 9 60 ⟨60, "D", some "ABC", some 5, none, none⟩
     "N" none (by decide),
   claim_C4_amended.2.2.2.1 c4Store 9 60 ⟨60, "D", some "ABC", some 5, none, none⟩
     (some 5) (by decide) (by decide),
   claim_C4_amended.2.2.2.2.1 c4Store 9 60 ⟨60, "D", some "ABC", some 5, none, none⟩
     [1, 2, 3, 4, 5, 6] [] (by decide) (by decide),
   claim_C4_amended.2.2.2.2.2.1 c4Store 9 60 ⟨60, "D", some "ABC", some 5, none, none⟩
     (by decide),
   claim_C4_amended.2.2.2.2.2.2 c4Store 9 2 ⟨2, "Burger", "Main", true, 1⟩
     ⟨1, "R", 7, [5], [2], [60]⟩ (by decide) (by decide) (by decide)⟩

/-- Claim C8 (amended) witness: on `c8Store` the racing creation is the
generic 500 with no store change and no events. -/
theorem claim_C8_amended_witness :
    createDisplay c8Store 7 1 "New" none 51 [10, 11, 12]
      = ⟨c8Store, [], 500, Body.errJson "Failed to create display"⟩ :=
  claim_C8_amended c8Store 7 1 ⟨1, "R", 7, [], [], [50]⟩ "New" none 51
    [10, 11, 12] (by decide) (by decide) (by decide)

/-- Restaurant 1 owns menu 5; display 60 shows menu 5, for claim C9. -/
def c9wStore : Store :=
  { restaurants := [⟨1, "R", 7, [5], [], [60]⟩],
    menus := [⟨5, "Lunch", none, []⟩], items := [],
    displays := [⟨60, "D", some "ABC", some 5, none, none⟩] }

/-- Claim C9 witness: deleting menu 5 removes it from restaurant 1 and the
menu collection while display 60 keeps its dangling `currentMenu = 5`. -/
theorem claim_C9_delete_menu_dangles_witness :
    (deleteMenu c9wStore 9 5).status = 200 ∧
    findMenu (deleteMenu c9wStore 9 5).store 5 = none ∧
    (deleteMenu c9wStore 9 5).store.displays = c9wStore.displays ∧
    (∀ d ∈ c9wStore.displays, d.currentMenu = some 5 →
        d ∈ (deleteMenu c9wStore 9 5).store.displays ∧ d.currentMenu = some 5) ∧
    (∀ r ∈ (deleteMenu c9wStore 9 5).store.restaurants, (5 : Id) ∉ r.menus) :=
  claim_C9_delete_menu_dangles c9wStore 9 5 ⟨5, "Lunch", none, []⟩
    (by decide) (by decide)

/-- One display, for claim C10. -/
def c10wStore : Store :=
  { restaurants := [], menus := [], items := [],
    displays := [⟨60, "D", some "ABC", none, none, none⟩] }

/-- Claim C10 witness: regenerating display 60's code emits nothing and
changes nothing except the stored pairing code. -/
theorem claim_C10_regenerate_frame_witness :
    (regeneratePairingCode c10wStore 9 60 [1] []).events = [] ∧
    (regeneratePairingCode c10wStore 9 60 [1] []).store.restaurants
      = c10wStore.restaurants ∧
    (regeneratePairingCode c10wStore 9 60 [1] []).store.menus = c10wStore.menus ∧
    (regeneratePairingCode c10wStore 9 60 [1] []).store.items = c10wStore.items ∧
    (regeneratePairingCode c10wStore 9 60 [1] []).store.displays.map displayFrame
      = c10wStore.displays.map displayFrame :=
  claim_C10_regenerate_frame c10wStore 9 60 [1] [] (by decide)

/-- Restaurant 1 (owner 7) with menu 5 and display 60 showing it, for
claim C6. -/
def c6wStore : Store :=
  { restaurants := [⟨1, "R", 7, [5], [], [60]⟩],
    menus := [⟨5, "Lunch", some "d", [9]⟩], items := [],
    displays := [⟨60, "D", some "ABC", some 5, none, none⟩] }

/-- Claim C6 (amended) witness: the normalization equation and every
display-returning endpoint, exercised on `c6wStore`. -/
theorem claim_C6_amended_witness :
    (transformDisplay ⟨60, "D", some "ABC",
        CMField.populated 5 "Lunch" (some "d") (some [9]), none, none⟩
      = ⟨60, "D", some "ABC",
         amendedNormalizeCM (CMField.populated 5 "Lunch" (some "d") (some [9])),
         none, none⟩) ∧
    ((createDisplay c6wStore 7 1 "New" none 61 [1]).body
        = Body.tdisplay (transformDisplay
            (rawDoc ⟨61, "New", some (genPairingCode [1]), none, none, none⟩)) ∧
     (createDisplay c6wStore 7 1 "New" none 61 [1]).events
        = [⟨"restaurant-" ++ toString (1 : Id), "display-created",
            Payload.displayP (transformDisplay
              (rawDoc ⟨61, "New", some (genPairingCode [1]), none, none, none⟩))⟩]) ∧
    ((getDisplays c6wStore 7 1).body
      = Body.tdisplays ((c6wStore.displays.filter
          (fun d => ([60] : List Id).contains d.id)).map
          (fun d => transformDisplay (populateDoc c6wStore d)))) ∧
    ((updateDisplay c6wStore 7 60 "N" none).body
        = Body.tdisplay (transformDisplay (rawDoc
            (updatedDisplayDoc ⟨60, "D", some "ABC", some 5, none, none⟩ "N" none))) ∧
     (updateDisplay c6wStore 7 60 "N" none).events
        = [⟨"display-" ++ toString (60 : Id), "display-updated",
            Payload.displayP (transformDisplay (rawDoc
              (updatedDisplayDoc ⟨60, "D", some "ABC", some 5, none, none⟩
                "N" none)))⟩]) ∧
    ((getDisplayByCode c6wStore "ABC").body
      = Body.tdisplay (transformDisplay
          (populateDoc c6wStore ⟨60, "D", some "ABC", some 5, none, none⟩))) ∧
    ((getDisplay c6wStore 7 60).body
      = Body.tdisplay (transformDisplay
          (populateDoc c6wStore ⟨60, "D", some "ABC", some 5, none, none⟩))) ∧
    ((assignMenu c6wStore 7 60 (some 5)).body
      = Body.tdisplay (transformDisplay
          (populateDoc (assignMenu c6wStore 7 60 (some 5)).store
            ⟨60, "D", some "ABC", some 5, none, none⟩))) ∧
    ((uploadMedia c6wStore 7 60 true "f.png" true).body
      = Body.tdisplay (transformDisplay (rawDoc
          ⟨60, "D", some "ABC", some 5, some ("/uploads/" ++ "f.png"),
           some (if true then "image" else "video")⟩))) ∧
    ((removeMedia c6wStore 7 60).body
      = Body.tdisplay (transformDisplay (rawDoc
          ⟨60, "D", some "ABC", some 5, none, none⟩))) :=
  ⟨claim_C6_amended.1
     ⟨60, "D", some "ABC", CMField.populated 5 "Lunch" (some "d") (some [9]),
      none, none⟩,
   claim_C6_amended.2.1 c6wStore 7 1 "New" none 61 [1] (by decide),
   claim_C6_amended.2.2.1 c6wStore 7 1 ⟨1, "R", 7, [5], [], [60]⟩
     (by decide) (by decide),
   claim_C6_amended.2.2.2.1 c6wStore 7 60
     ⟨60, "D", some "ABC", some 5, none, none⟩ "N" none (by decide),
   claim_C6_amended.2.2.2.2.1 c6wStore "ABC"
     ⟨60, "D", some "ABC", some 5, none, none⟩ (by decide),
   claim_C6_amended.2.2.2.2.2.1 c6wStore 7 60
     ⟨60, "D", some "ABC", some 5, none, none⟩ (by decide),
   claim_C6_amended.2.2.2.2.2.2.1 c6wStore 7 60
     ⟨60, "D", some "ABC", some 5, none, none⟩ (some 5) (by decide) (by decide),
   claim_C6_amended.2.2.2.2.2.2.2.1 c6wStore 7 60
     ⟨60, "D", some "ABC", some 5, none, none⟩ "f.png" true (by decide),
   claim_C6_amended.2.2.2.2.2.2.2.2 c6wStore 7 60
     ⟨60, "D", some "ABC", some 5, none, none⟩ (by decide)⟩

end Yarnsign
